import Mathlib

/-!
Shallow embedding of `src/widget/src/tooltip.rs` (the iced tooltip widget).

Scalar values of type `f32` are modelled as exact rationals (`ℚ`); instants
and durations (`Instant`, `Duration`) are likewise modelled as rationals,
with a duration measured in milliseconds and `now - since` as the elapsed
time.  The host framework (renderer, layout engine, widget tree) is out of
scope: measured sizes, layout positions and translations enter the embedded
functions as parameters, exactly as they enter the Rust functions through
`renderer` and `layout`.
-/

namespace Iced

/-- A 2-dimensional point, from `iced_core::Point`. -/
structure Point where
  x : ℚ
  y : ℚ
deriving DecidableEq, Repr

/-- A 2-dimensional vector, from `iced_core::Vector`. -/
structure Vector where
  x : ℚ
  y : ℚ
deriving DecidableEq, Repr

/-- A 2-dimensional size, from `iced_core::Size`. -/
structure Size where
  width : ℚ
  height : ℚ
deriving DecidableEq, Repr

/-- An axis-aligned rectangle, from `iced_core::Rectangle`. -/
structure Rectangle where
  x : ℚ
  y : ℚ
  width : ℚ
  height : ℚ
deriving DecidableEq, Repr

/-- `Rectangle::position`: the top-left corner of a rectangle. -/
def Rectangle.position (r : Rectangle) : Point :=
  ⟨r.x, r.y⟩

/-- `Rectangle::size`: the size of a rectangle. -/
def Rectangle.size (r : Rectangle) : Size :=
  ⟨r.width, r.height⟩

/-- `Rectangle::with_size`: a rectangle at the origin with the given size. -/
def Rectangle.with_size (s : Size) : Rectangle :=
  ⟨0, 0, s.width, s.height⟩

/-- `Point + Vector` (componentwise), from `iced_core`. -/
def Point.addVector (p : Point) (v : Vector) : Point :=
  ⟨p.x + v.x, p.y + v.y⟩

/-- `Point - Point = Vector` (componentwise), from `iced_core`. -/
def Point.sub (p q : Point) : Vector :=
  ⟨p.x - q.x, p.y - q.y⟩

/-- `Vector + Vector` (componentwise), from `iced_core`. -/
def Vector.add (v w : Vector) : Vector :=
  ⟨v.x + w.x, v.y + w.y⟩

/-- The `Position` enum of `tooltip.rs` (lines 376-390): where the tooltip
is placed relative to the content.  The Rust `#[default]` attribute marks
`Top`. -/
inductive Position where
  | Top
  | Bottom
  | Left
  | Right
  | FollowCursor
deriving DecidableEq, Repr

/-- `Position::default()`, from `#[derive(Default)]` with `#[default]` on
`Top`. -/
def Position.default : Position :=
  Position.Top

/-- The private `State` enum of `tooltip.rs` (lines 392-400).  The Rust
field `at` is named `since` here because `at` is reserved in Lean; it is
the `Instant` at which the current hover episode began. -/
inductive State where
  | Idle
  | Hovered (cursor_position : Point) (since : ℚ)
deriving DecidableEq, Repr

/-- `State::default()`, from `#[derive(Default)]` with `#[default]` on
`Idle`. -/
def State.default : State :=
  State.Idle

/-- `DEFAULT_TOOLTIP_DELAY` (line 38): 2000 milliseconds. -/
def DEFAULT_TOOLTIP_DELAY : ℚ := 2000

/-- The configuration fields of the `Tooltip` struct (lines 64-81); the
two child elements and the style class are host-framework values and are
not part of the embedded state. -/
structure Tooltip where
  position : Position
  gap : ℚ
  padding : ℚ
  snap_within_viewport : Bool
  delay : ℚ
deriving DecidableEq, Repr

/-- `Tooltip::DEFAULT_PADDING` (line 89). -/
def Tooltip.DEFAULT_PADDING : ℚ := 5

/-- `Tooltip::new` (lines 94-109): the configuration of a freshly built
tooltip. -/
def Tooltip.new (position : Position) : Tooltip :=
  { position := position
    gap := 0
    padding := Tooltip.DEFAULT_PADDING
    snap_within_viewport := true
    delay := DEFAULT_TOOLTIP_DELAY }

/-- The redraw request recorded on the `Shell` by one `update` call:
nothing, `request_redraw()`, or `request_redraw_at(instant)`. -/
inductive RedrawRequest where
  | none
  | now
  | atTime (instant : ℚ)
deriving DecidableEq, Repr

/-- The observable effects of one `update` call on the `Shell`: whether
`invalidate_layout()` was called, and which redraw was requested. -/
structure ShellEffects where
  invalidate_layout : Bool
  redraw : RedrawRequest
deriving DecidableEq, Repr

/-- `Instant::elapsed` relative to an explicit current instant `now`:
`since.elapsed() = now - since`. -/
def elapsed (since now : ℚ) : ℚ :=
  now - since

/-- `Tooltip::update` (lines 205-268), restricted to its own state
transition (the unconditional delegation to the content widget carries no
tooltip state).  `cursor_position` is the result of
`cursor.position_over(layout.bounds())` and `now` the value of
`Instant::now()`. -/
def Tooltip.update (t : Tooltip) (state : State)
    (cursor_position : Option Point) (now : ℚ) : State × ShellEffects :=
  match state, cursor_position with
  | State.Idle, some cursor_position =>
      (State.Hovered cursor_position now,
       ⟨true, RedrawRequest.atTime (now + t.delay)⟩)
  | State.Hovered _ _, none =>
      (State.Idle, ⟨true, RedrawRequest.now⟩)
  | State.Hovered old_cursor since, some cursor_position =>
      if elapsed since now < t.delay then
        (State.Hovered cursor_position since,
         ⟨false, RedrawRequest.atTime (now + t.delay - elapsed since now)⟩)
      else if t.position = Position.FollowCursor then
        (State.Hovered cursor_position since, ⟨false, RedrawRequest.none⟩)
      else
        (State.Hovered old_cursor since, ⟨false, RedrawRequest.none⟩)
  | State.Idle, none =>
      (State.Idle, ⟨false, RedrawRequest.none⟩)

/-- The data captured by the `Overlay` struct (lines 402-417), dropping
the host-framework references (`tooltip` element, widget tree, class). -/
structure OverlayData where
  position : Point
  cursor_position : Point
  content_bounds : Rectangle
  snap_within_viewport : Bool
  positioning : Position
  gap : ℚ
  padding : ℚ
deriving DecidableEq, Repr

/-- The tooltip arm of `Tooltip::overlay` (lines 328-347): the overlay is
materialized exactly when the state is `Hovered` and the elapsed hover
time strictly exceeds the delay.  `layout_position` is `layout.position()`
and `content_bounds` is `layout.bounds()`. -/
def Tooltip.tooltipOverlay (t : Tooltip) (state : State) (now : ℚ)
    (layout_position : Point) (translation : Vector)
    (content_bounds : Rectangle) : Option OverlayData :=
  match state with
  | State.Hovered cursor_position since =>
      if elapsed since now > t.delay then
        some { position := layout_position.addVector translation
               cursor_position := cursor_position
               content_bounds := content_bounds
               snap_within_viewport := t.snap_within_viewport
               positioning := t.position
               gap := t.gap
               padding := t.padding }
      else
        Option.none
  | State.Idle => Option.none

/-- The viewport-clamping pass of `Overlay::layout` (lines 497-515),
written for a general viewport rectangle exactly as the source reads
`viewport.x`, `viewport.width`, `viewport.y`, `viewport.height`. -/
def clampToViewport (r viewport : Rectangle) : Rectangle :=
  let x :=
    if r.x < viewport.x then viewport.x
    else if viewport.x + viewport.width < r.x + r.width then
      viewport.x + viewport.width - r.width
    else r.x
  let y :=
    if r.y < viewport.y then viewport.y
    else if viewport.y + viewport.height < r.y + r.height then
      viewport.y + viewport.height - r.height
    else r.y
  ⟨x, y, r.width, r.height⟩

/-- The placement computation of `Overlay::layout` (lines 425-525):
given the measured tooltip bounds `text_bounds` (produced externally by
`self.tooltip.as_widget().layout(...)`) and the overlay `bounds`, the
final placement rectangle `tooltip_bounds`. -/
def Overlay.layout (o : OverlayData) (text_bounds : Size) (bounds : Size) :
    Rectangle :=
  let viewport := Rectangle.with_size bounds
  let x_center := o.position.x + (o.content_bounds.width - text_bounds.width) / 2
  let y_center := o.position.y + (o.content_bounds.height - text_bounds.height) / 2
  let offset : Vector :=
    match o.positioning with
    | Position.Top =>
        ⟨x_center, o.position.y - text_bounds.height - o.gap - o.padding⟩
    | Position.Bottom =>
        ⟨x_center, o.position.y + o.content_bounds.height + o.gap + o.padding⟩
    | Position.Left =>
        ⟨o.position.x - text_bounds.width - o.gap - o.padding, y_center⟩
    | Position.Right =>
        ⟨o.position.x + o.content_bounds.width + o.gap + o.padding, y_center⟩
    | Position.FollowCursor =>
        let translation := o.position.sub o.content_bounds.position
        Vector.add
          ⟨o.cursor_position.x, o.cursor_position.y - text_bounds.height⟩
          translation
  let tooltip_bounds : Rectangle :=
    ⟨offset.x - o.padding, offset.y - o.padding,
     text_bounds.width + o.padding * 2, text_bounds.height + o.padding * 2⟩
  if o.snap_within_viewport then clampToViewport tooltip_bounds viewport
  else tooltip_bounds

/-- One axis of the clamping pass: the common shape of the x- and y-branches
of lines 497-515. -/
def clamp1 (low len x w : ℚ) : ℚ :=
  if x < low then low
  else if low + len < x + w then low + len - w
  else x

/-- The clamping pass acts on each axis by `clamp1` and never changes the
size. -/
theorem clampToViewport_eq (r v : Rectangle) :
    clampToViewport r v =
      ⟨clamp1 v.x v.width r.x r.width, clamp1 v.y v.height r.y r.height,
       r.width, r.height⟩ :=
  rfl

/-- One clamped axis is a fixed point of `clamp1` when the span fits. -/
theorem clamp1_idem (low len x w : ℚ) (h : w ≤ len) :
    clamp1 low len (clamp1 low len x w) w = clamp1 low len x w := by
  unfold clamp1
  split_ifs <;> first | rfl | linarith

/-- C1: the tooltip overlay is materialized iff the state is `Hovered` and
the elapsed time since the hover began strictly exceeds the delay; the
`Idle` state never yields a tooltip overlay, for every elapsed time and
every delay value including zero. -/
theorem tooltipOverlay_isSome_iff (t : Tooltip) (st : State) (now : ℚ)
    (lp : Point) (tr : Vector) (cb : Rectangle) :
    ((t.tooltipOverlay st now lp tr cb).isSome ↔
      ∃ cp since, st = State.Hovered cp since ∧ elapsed since now > t.delay) ∧
    ∀ d now2,
      Tooltip.tooltipOverlay { t with delay := d } State.Idle now2 lp tr cb =
        Option.none := by
  constructor
  · cases st with
    | Idle => simp [Tooltip.tooltipOverlay]
    | Hovered cp since =>
        simp only [Tooltip.tooltipOverlay]
        split_ifs with h <;> simp [h, State.Hovered.injEq]
        · exact ⟨cp, since, ⟨rfl, rfl⟩, h⟩
        · exact not_lt.mp h
  · intro d now2
    rfl

/-- C9: a newly constructed tooltip has gap 0, padding 5, a 2000 ms delay
and viewport snapping enabled, keeps the placement mode it was given, and
the default placement mode is `Top`. -/
theorem new_defaults (p : Position) :
    (Tooltip.new p).padding = 5 ∧ (Tooltip.new p).delay = 2000 ∧
    (Tooltip.new p).snap_within_viewport = true ∧ (Tooltip.new p).gap = 0 ∧
    (Tooltip.new p).position = p ∧ Position.default = Position.Top := by
  refine ⟨?_, ?_, rfl, rfl, rfl, rfl⟩
  · simp [Tooltip.new, Tooltip.DEFAULT_PADDING]
  · simp [Tooltip.new, DEFAULT_TOOLTIP_DELAY]

/-- C10: the state allocated for a fresh widget instance is `Idle`, and a
widget in that state never produces a tooltip overlay, at any instant and
for any configuration. -/
theorem default_state_no_overlay (t : Tooltip) (now : ℚ) (lp : Point)
    (tr : Vector) (cb : Rectangle) :
    State.default = State.Idle ∧
    t.tooltipOverlay State.default now lp tr cb = Option.none :=
  ⟨rfl, rfl⟩

/-- C5: while hovering with the pointer still present and the elapsed time
strictly below the delay, `update` keeps `since`, replaces only the stored
cursor position, does not invalidate the layout, and re-arms the redraw at
`since + delay` — the very deadline armed when the hover episode began at
instant `since`. -/
theorem update_hovered_before_delay (t : Tooltip) (cp p : Point)
    (since now : ℚ) (h : elapsed since now < t.delay) :
    t.update (State.Hovered cp since) (some p) now =
      (State.Hovered p since,
       ⟨false, RedrawRequest.atTime (since + t.delay)⟩) ∧
    (t.update State.Idle (some cp) since).2.redraw =
      RedrawRequest.atTime (since + t.delay) := by
  constructor
  · simp only [Tooltip.update, if_pos h]
    have harm : now + t.delay - elapsed since now = since + t.delay := by
      simp [elapsed]; ring
    rw [harm]
  · simp [Tooltip.update]

/-- C6: while hovering, a pointer exit sends `update` to `Idle` with a
layout invalidation and an immediate redraw; `since` is discarded, so a
later re-entry at instant `t2` restarts the delay from `t2`, arming the
redraw at `t2 + delay`. -/
theorem update_hovered_exit_resets (t : Tooltip) (cp p : Point)
    (since t1 t2 : ℚ) :
    t.update (State.Hovered cp since) Option.none t1 =
      (State.Idle, ⟨true, RedrawRequest.now⟩) ∧
    t.update (t.update (State.Hovered cp since) Option.none t1).1 (some p) t2 =
      (State.Hovered p t2,
       ⟨true, RedrawRequest.atTime (t2 + t.delay)⟩) := by
  exact ⟨rfl, rfl⟩

/-- C7: from `Idle` with the pointer over the source at `p`, `update`
moves to `Hovered` with cursor `p` and `since = now`, invalidates the
layout, and arms a redraw at `now + delay`; the new state itself yields no
overlay at instant `now` (for a nonnegative delay). -/
theorem update_idle_hover_begins (t : Tooltip) (p : Point) (now : ℚ)
    (lp : Point) (tr : Vector) (cb : Rectangle) (hd : 0 ≤ t.delay) :
    t.update State.Idle (some p) now =
      (State.Hovered p now,
       ⟨true, RedrawRequest.atTime (now + t.delay)⟩) ∧
    t.tooltipOverlay (State.Hovered p now) now lp tr cb = Option.none := by
  constructor
  · rfl
  · simp only [Tooltip.tooltipOverlay]
    rw [if_neg]
    simp only [elapsed, sub_self, gt_iff_lt, not_lt]
    exact hd

/-- Witness for C5: with the default configuration, a hover that began at
instant 0 and is updated at instant 1000 keeps the deadline 2000. -/
theorem update_hovered_before_delay_witness :
    elapsed 0 1000 < (Tooltip.new Position.Top).delay ∧
    (Tooltip.new Position.Top).update (State.Hovered ⟨0, 0⟩ 0)
        (some ⟨3, 4⟩) 1000 =
      (State.Hovered ⟨3, 4⟩ 0,
       ⟨false, RedrawRequest.atTime (0 + (Tooltip.new Position.Top).delay)⟩) :=
  ⟨by norm_num [elapsed, Tooltip.new, DEFAULT_TOOLTIP_DELAY],
   (update_hovered_before_delay (Tooltip.new Position.Top) ⟨0, 0⟩ ⟨3, 4⟩ 0 1000
       (by norm_num [elapsed, Tooltip.new, DEFAULT_TOOLTIP_DELAY])).1⟩

/-- Witness for C7: with the default configuration, a hover beginning at
instant 5 arms a redraw at 2005 and yields no overlay at instant 5. -/
theorem update_idle_hover_begins_witness :
    (0 : ℚ) ≤ (Tooltip.new Position.Top).delay ∧
    (Tooltip.new Position.Top).update State.Idle (some ⟨1, 2⟩) 5 =
      (State.Hovered ⟨1, 2⟩ 5,
       ⟨true,
        RedrawRequest.atTime (5 + (Tooltip.new Position.Top).delay)⟩) ∧
    (Tooltip.new Position.Top).tooltipOverlay (State.Hovered ⟨1, 2⟩ 5) 5
        ⟨0, 0⟩ ⟨0, 0⟩ ⟨0, 0, 1, 1⟩ = Option.none := by
  have h := update_idle_hover_begins (Tooltip.new Position.Top) ⟨1, 2⟩ 5
    ⟨0, 0⟩ ⟨0, 0⟩ ⟨0, 0, 1, 1⟩
    (by norm_num [Tooltip.new, DEFAULT_TOOLTIP_DELAY])
  exact ⟨by norm_num [Tooltip.new, DEFAULT_TOOLTIP_DELAY], h.1, h.2⟩

/-- A clamped axis whose low edge was before the viewport's is moved to
the viewport's low edge. -/
theorem clamp1_of_lt_low (low len x w : ℚ) (h : x < low) :
    clamp1 low len x w = low :=
  if_pos h

/-- A clamped axis whose high edge exceeded the viewport's (low edge not
before) is moved so the high edges align. -/
theorem clamp1_of_high (low len x w : ℚ) (h1 : ¬ x < low)
    (h2 : low + len < x + w) : clamp1 low len x w = low + len - w := by
  unfold clamp1
  rw [if_neg h1, if_pos h2]

/-- An axis already inside the viewport is left unchanged. -/
theorem clamp1_of_inside (low len x w : ℚ) (h1 : ¬ x < low)
    (h2 : ¬ low + len < x + w) : clamp1 low len x w = x := by
  unfold clamp1
  rw [if_neg h1, if_neg h2]

/-- C4: for every placement mode, gap, padding, viewport and snap flag,
the placement rectangle has exactly the measured size inflated by twice
the padding on each axis; clamping never changes the size. -/
theorem layout_size_inflated (o : OverlayData) (tb b : Size) :
    (Overlay.layout o tb b).width = tb.width + o.padding * 2 ∧
    (Overlay.layout o tb b).height = tb.height + o.padding * 2 := by
  obtain ⟨pos, cp, cb, snap, pm, gap, pad⟩ := o
  cases pm <;> cases snap <;>
    simp [Overlay.layout, clampToViewport]

/-- Counterexample for C2: in `Right` mode with a tooltip of width 20 in a
viewport of width 10 (low edges at 0), the tooltip rectangle is wider than
the viewport on the x-axis, yet the clamped result has x = -10, not the
viewport's low edge 0. -/
theorem layout_oversize_not_pinned_low :
    (Rectangle.with_size ⟨10, 10⟩).width < (20 : ℚ) + 0 * 2 ∧
    Overlay.layout ⟨⟨0, 0⟩, ⟨0, 0⟩, ⟨0, 0, 5, 5⟩, true, Position.Right, 0, 0⟩
        ⟨20, 5⟩ ⟨10, 10⟩ = ⟨-10, 0, 20, 5⟩ ∧
    (-10 : ℚ) ≠ (Rectangle.with_size ⟨10, 10⟩).x := by
  refine ⟨by norm_num [Rectangle.with_size], ?_,
    by norm_num [Rectangle.with_size]⟩
  norm_num [Overlay.layout, clampToViewport, Rectangle.with_size,
    Rectangle.mk.injEq]

/-- C2 as amended: clamping is applied exactly when `snap` is true, acts
independently on each axis (low edge shifted to the viewport's low edge
when it lies before it, else high edges aligned when the high edge
overflows, else unchanged, never resizing); when the rectangle is larger
than the viewport on an axis it is pinned to the viewport's low edge only
if its low edge lay before the viewport's — otherwise the high edges are
aligned and the result's low edge lies strictly before the viewport's. -/
theorem clamp_shift_per_axis (o : OverlayData) (tb b : Size)
    (r v : Rectangle) (hs : o.snap_within_viewport = true) :
    Overlay.layout o tb b =
      clampToViewport
        (Overlay.layout { o with snap_within_viewport := false } tb b)
        (Rectangle.with_size b) ∧
    (clampToViewport r v).width = r.width ∧
    (clampToViewport r v).height = r.height ∧
    (r.x < v.x → (clampToViewport r v).x = v.x) ∧
    (¬ r.x < v.x → v.x + v.width < r.x + r.width →
      (clampToViewport r v).x + r.width = v.x + v.width) ∧
    (¬ r.x < v.x → ¬ v.x + v.width < r.x + r.width →
      (clampToViewport r v).x = r.x) ∧
    (r.y < v.y → (clampToViewport r v).y = v.y) ∧
    (¬ r.y < v.y → v.y + v.height < r.y + r.height →
      (clampToViewport r v).y + r.height = v.y + v.height) ∧
    (¬ r.y < v.y → ¬ v.y + v.height < r.y + r.height →
      (clampToViewport r v).y = r.y) ∧
    (v.width < r.width → ¬ r.x < v.x →
      (clampToViewport r v).x + r.width = v.x + v.width ∧
      (clampToViewport r v).x < v.x) ∧
    (v.height < r.height → ¬ r.y < v.y →
      (clampToViewport r v).y + r.height = v.y + v.height ∧
      (clampToViewport r v).y < v.y) := by
  refine ⟨?_, rfl, rfl, ?_, ?_, ?_, ?_, ?_, ?_, ?_, ?_⟩
  · obtain ⟨pos, cp, cb, snap, pm, gap, pad⟩ := o
    simp only at hs
    subst hs
    cases pm <;> simp [Overlay.layout]
  · intro h
    exact clamp1_of_lt_low v.x v.width r.x r.width h
  · intro h1 h2
    rw [show (clampToViewport r v).x = clamp1 v.x v.width r.x r.width from rfl,
      clamp1_of_high v.x v.width r.x r.width h1 h2]
    ring
  · intro h1 h2
    exact clamp1_of_inside v.x v.width r.x r.width h1 h2
  · intro h
    exact clamp1_of_lt_low v.y v.height r.y r.height h
  · intro h1 h2
    rw [show (clampToViewport r v).y = clamp1 v.y v.height r.y r.height from rfl,
      clamp1_of_high v.y v.height r.y r.height h1 h2]
    ring
  · intro h1 h2
    exact clamp1_of_inside v.y v.height r.y r.height h1 h2
  · intro hw h1
    have h2 : v.x + v.width < r.x + r.width := by
      have := not_lt.mp h1
      linarith
    constructor
    · rw [show (clampToViewport r v).x = clamp1 v.x v.width r.x r.width from rfl,
        clamp1_of_high v.x v.width r.x r.width h1 h2]
      ring
    · rw [show (clampToViewport r v).x = clamp1 v.x v.width r.x r.width from rfl,
        clamp1_of_high v.x v.width r.x r.width h1 h2]
      linarith
  · intro hh h1
    have h2 : v.y + v.height < r.y + r.height := by
      have := not_lt.mp h1
      linarith
    constructor
    · rw [show (clampToViewport r v).y = clamp1 v.y v.height r.y r.height from rfl,
        clamp1_of_high v.y v.height r.y r.height h1 h2]
      ring
    · rw [show (clampToViewport r v).y = clamp1 v.y v.height r.y r.height from rfl,
        clamp1_of_high v.y v.height r.y r.height h1 h2]
      linarith

/-- Witness for the amended C2: a concrete snapping configuration, and a
concrete rectangle of size 20 by 20 in the 10 by 10 viewport whose low
edges are inside it, landing with its high edges aligned and its low edges
strictly before the viewport's. -/
theorem clamp_shift_per_axis_witness :
    (⟨⟨0, 0⟩, ⟨0, 0⟩, ⟨0, 0, 5, 5⟩, true, Position.Top, 0,
        0⟩ : OverlayData).snap_within_viewport = true ∧
    (10 : ℚ) < 20 ∧ ¬ ((5 : ℚ) < 0) ∧
    (clampToViewport ⟨5, 5, 20, 20⟩ ⟨0, 0, 10, 10⟩).x + 20 = 0 + 10 ∧
    (clampToViewport ⟨5, 5, 20, 20⟩ ⟨0, 0, 10, 10⟩).x < 0 ∧
    (clampToViewport ⟨5, 5, 20, 20⟩ ⟨0, 0, 10, 10⟩).y + 20 = 0 + 10 ∧
    (clampToViewport ⟨5, 5, 20, 20⟩ ⟨0, 0, 10, 10⟩).y < 0 := by
  have h := clamp_shift_per_axis
    ⟨⟨0, 0⟩, ⟨0, 0⟩, ⟨0, 0, 5, 5⟩, true, Position.Top, 0, 0⟩ ⟨1, 1⟩ ⟨10, 10⟩
    ⟨5, 5, 20, 20⟩ ⟨0, 0, 10, 10⟩ rfl
  have hx := h.2.2.2.2.2.2.2.2.2.1 (by norm_num) (by norm_num)
  have hy := h.2.2.2.2.2.2.2.2.2.2 (by norm_num) (by norm_num)
  exact ⟨rfl, by norm_num, by norm_num, hx.1, hx.2, hy.1, hy.2⟩

/-- Counterexample for C3: for the rectangle at x = 5 of width 20 and the
10 by 10 viewport at the origin, one clamp gives x = -10 and a second
clamp moves it to x = 0, so clamping twice differs from clamping once. -/
theorem clamp_not_idempotent :
    clampToViewport (clampToViewport ⟨5, 0, 20, 5⟩ ⟨0, 0, 10, 10⟩)
        ⟨0, 0, 10, 10⟩ ≠
      clampToViewport ⟨5, 0, 20, 5⟩ ⟨0, 0, 10, 10⟩ := by
  norm_num [clampToViewport, Rectangle.mk.injEq]

/-- C3 as amended: viewport clamping is idempotent for every rectangle
that is no larger than the viewport on each axis (on oversized rectangles
a second clamp can move the result again). -/
theorem clamp_idempotent_of_fits (r v : Rectangle)
    (hw : r.width ≤ v.width) (hh : r.height ≤ v.height) :
    clampToViewport (clampToViewport r v) v = clampToViewport r v := by
  rw [clampToViewport_eq r v, clampToViewport_eq]
  simp only [Rectangle.mk.injEq]
  exact ⟨clamp1_idem v.x v.width r.x r.width hw,
    clamp1_idem v.y v.height r.y r.height hh, trivial, trivial⟩

/-- Witness for the amended C3: a 4 by 4 rectangle in the 10 by 10
viewport is clamped to the same place whether clamped once or twice. -/
theorem clamp_idempotent_of_fits_witness :
    (4 : ℚ) ≤ 10 ∧ (4 : ℚ) ≤ 10 ∧
    clampToViewport (clampToViewport ⟨-3, 9, 4, 4⟩ ⟨0, 0, 10, 10⟩)
        ⟨0, 0, 10, 10⟩ =
      clampToViewport ⟨-3, 9, 4, 4⟩ ⟨0, 0, 10, 10⟩ :=
  ⟨by norm_num, by norm_num,
   clamp_idempotent_of_fits ⟨-3, 9, 4, 4⟩ ⟨0, 0, 10, 10⟩
     (by norm_num) (by norm_num)⟩

/-- Counterexample for C8: with the default `FollowCursor` configuration
(snapping on), two frames after the delay has elapsed with the distinct
pointer positions (-1000, -1000) and (-2000, -2000) are both clamped to
the identical placement rectangle at the viewport origin, so the two
placement rectangles do not differ and their offsets from the two pointer
positions are not equal. -/
theorem followCursor_clamped_collision :
    (⟨-1000, -1000⟩ : Point) ≠ ⟨-2000, -2000⟩ ∧
    elapsed 0 3000 > (Tooltip.new Position.FollowCursor).delay ∧
    (Tooltip.tooltipOverlay (Tooltip.new Position.FollowCursor)
          (State.Hovered ⟨-1000, -1000⟩ 0) 3000 ⟨0, 0⟩ ⟨0, 0⟩
          ⟨0, 0, 5, 5⟩).map
        (fun o => Overlay.layout o ⟨10, 10⟩ ⟨800, 600⟩) =
      some ⟨0, 0, 20, 20⟩ ∧
    (Tooltip.tooltipOverlay (Tooltip.new Position.FollowCursor)
          (State.Hovered ⟨-2000, -2000⟩ 0) 3000 ⟨0, 0⟩ ⟨0, 0⟩
          ⟨0, 0, 5, 5⟩).map
        (fun o => Overlay.layout o ⟨10, 10⟩ ⟨800, 600⟩) =
      some ⟨0, 0, 20, 20⟩ := by
  refine ⟨by norm_num [Point.mk.injEq], ?_, ?_, ?_⟩
  · norm_num [elapsed, Tooltip.new, DEFAULT_TOOLTIP_DELAY]
  · norm_num [Tooltip.tooltipOverlay, Tooltip.new, DEFAULT_TOOLTIP_DELAY,
      Tooltip.DEFAULT_PADDING, elapsed, Overlay.layout, clampToViewport,
      Rectangle.with_size, Point.addVector, Point.sub, Vector.add,
      Rectangle.position, Rectangle.mk.injEq]
  · norm_num [Tooltip.tooltipOverlay, Tooltip.new, DEFAULT_TOOLTIP_DELAY,
      Tooltip.DEFAULT_PADDING, elapsed, Overlay.layout, clampToViewport,
      Rectangle.with_size, Point.addVector, Point.sub, Vector.add,
      Rectangle.position, Rectangle.mk.injEq]

/-- C8 as amended: in `FollowCursor` mode the anchor before padding
inflation is the cursor shifted by the translation
`position - content_bounds.position` (and down by the tooltip height), so
when viewport snapping is disabled two frames with distinct pointer
positions produce distinct placement rectangles, each at the same constant
offset from its pointer position. -/
theorem followCursor_tracks_cursor (o : OverlayData) (c1 c2 : Point)
    (tb b : Size) (hpos : o.positioning = Position.FollowCursor)
    (hsnap : o.snap_within_viewport = false) (hne : c1 ≠ c2) :
    (Overlay.layout { o with cursor_position := c1 } tb b).x =
      c1.x + (o.position.x - o.content_bounds.x) - o.padding ∧
    (Overlay.layout { o with cursor_position := c1 } tb b).y =
      c1.y - tb.height + (o.position.y - o.content_bounds.y) - o.padding ∧
    Overlay.layout { o with cursor_position := c1 } tb b ≠
      Overlay.layout { o with cursor_position := c2 } tb b ∧
    (Overlay.layout { o with cursor_position := c1 } tb b).x - c1.x =
      (Overlay.layout { o with cursor_position := c2 } tb b).x - c2.x ∧
    (Overlay.layout { o with cursor_position := c1 } tb b).y - c1.y =
      (Overlay.layout { o with cursor_position := c2 } tb b).y - c2.y := by
  obtain ⟨pos, cp0, cb0, snap, pm, gap, pad⟩ := o
  have hpm : pm = Position.FollowCursor := hpos
  have hsn : snap = false := hsnap
  subst hpm
  subst hsn
  have h1 : Overlay.layout
      ⟨pos, c1, cb0, false, Position.FollowCursor, gap, pad⟩ tb b =
      ⟨c1.x + (pos.x - cb0.x) - pad, c1.y - tb.height + (pos.y - cb0.y) - pad,
       tb.width + pad * 2, tb.height + pad * 2⟩ := by
    simp [Overlay.layout, Point.sub, Vector.add, Rectangle.position]
  have h2 : Overlay.layout
      ⟨pos, c2, cb0, false, Position.FollowCursor, gap, pad⟩ tb b =
      ⟨c2.x + (pos.x - cb0.x) - pad, c2.y - tb.height + (pos.y - cb0.y) - pad,
       tb.width + pad * 2, tb.height + pad * 2⟩ := by
    simp [Overlay.layout, Point.sub, Vector.add, Rectangle.position]
  refine ⟨by rw [h1], by rw [h1], ?_, by rw [h1, h2]; ring_nf, by rw [h1, h2]; ring_nf⟩
  rw [h1, h2]
  intro heq
  rw [Rectangle.mk.injEq] at heq
  obtain ⟨hx, hy, -, -⟩ := heq
  apply hne
  have hcx : c1.x = c2.x := by linarith
  have hcy : c1.y = c2.y := by linarith
  cases c1
  cases c2
  simp only at hcx hcy
  simp [hcx, hcy]

/-- Witness for the amended C8: a concrete unsnapped `FollowCursor`
configuration with cursors (0, 0) and (1, 0) yields two distinct
rectangles at the same offset from their cursors. -/
theorem followCursor_tracks_cursor_witness :
    (⟨⟨3, 4⟩, ⟨0, 0⟩, ⟨1, 1, 5, 5⟩, false, Position.FollowCursor, 0,
        2⟩ : OverlayData).positioning = Position.FollowCursor ∧
    (⟨⟨3, 4⟩, ⟨0, 0⟩, ⟨1, 1, 5, 5⟩, false, Position.FollowCursor, 0,
        2⟩ : OverlayData).snap_within_viewport = false ∧
    (⟨0, 0⟩ : Point) ≠ ⟨1, 0⟩ ∧
    Overlay.layout ⟨⟨3, 4⟩, ⟨0, 0⟩, ⟨1, 1, 5, 5⟩, false,
        Position.FollowCursor, 0, 2⟩ ⟨10, 10⟩ ⟨800, 600⟩ ≠
      Overlay.layout ⟨⟨3, 4⟩, ⟨1, 0⟩, ⟨1, 1, 5, 5⟩, false,
        Position.FollowCursor, 0, 2⟩ ⟨10, 10⟩ ⟨800, 600⟩ := by
  have h := followCursor_tracks_cursor
    ⟨⟨3, 4⟩, ⟨0, 0⟩, ⟨1, 1, 5, 5⟩, false, Position.FollowCursor, 0, 2⟩
    ⟨0, 0⟩ ⟨1, 0⟩ ⟨10, 10⟩ ⟨800, 600⟩ rfl rfl
    (by norm_num [Point.mk.injEq])
  exact ⟨rfl, rfl, by norm_num [Point.mk.injEq], h.2.2.1⟩

end Iced
